import Mathlib

/-!
Verification of the denuel_voice_bridge real-time coordination layer.

This file gives a shallow embedding, in Lean 4, of the core components of
the repository:

* `VoiceActivityDetector` from `ai/pipelines/denuel_voice_bridge.py`
  (the adaptive energy-gate utterance segmenter);
* `AudioBuffer` from `ai/api/streaming.py`
  (the bounded audio buffer with backpressure signalling);
* `StreamingSession` from `ai/api/streaming.py`
  (the session coordinator: config updates, audio ingest, the process
  loop and the collaborator calls it makes).

Conventions of the embedding:

* Python floats are modelled as rationals (`ℚ`); byte strings as `List Nat`.
* `process_chunk(audio_chunk)` first computes the RMS energy of the chunk
  (`np.sqrt(np.mean(chunk ** 2))`) and from then on uses only that scalar.
  The embedding takes the RMS energy itself as the argument, since square
  roots leave `ℚ` and every downstream decision depends on the chunk only
  through its energy.
* `asyncio` events (`_not_full`, `_not_empty`) are modelled as `Bool`
  fields: `true` means the event is set (a waiter would proceed).
* Collaborator calls (`transcribe_func`, `synthesize_func`) are modelled
  as `Option` functions into `Except String _`; `Except.error` models a
  raised exception. Python `try/finally` with a propagating exception is
  modelled by running the `finally` code and returning `Option String`
  (the escaped exception) alongside the new state.
* Wall-clock values (`time.time()`, latency samples) and the Prometheus
  metric hooks are outside the model; message payloads are reduced to
  their type tags plus, for binary frames, their bytes, which is all the
  claims observe.
-/

/-! ## VoiceActivityDetector (ai/pipelines/denuel_voice_bridge.py, lines 66-144) -/

/-- State of `VoiceActivityDetector`.  Field names and initial values follow
`__init__` (lines 74-91).  `energy_history` is a `deque(maxlen=50)`; the
`maxlen` is recorded by `pushHistory` below. -/
structure VoiceActivityDetector where
  sample_rate : ℕ := 16000
  energy_threshold : ℚ := 0.01
  silence_threshold : ℚ := 0.005
  energy_history : List ℚ := []
  noise_floor : ℚ := 0.001
  is_speaking : Bool := false
  speech_frames : ℕ := 0
  silence_frames : ℕ := 0
  min_speech_frames : ℕ := 3
  max_silence_frames : ℕ := 10
deriving Repr, DecidableEq

namespace VoiceActivityDetector

/-- `deque(maxlen=50).append e`: append on the right, dropping from the left
once the length exceeds 50. -/
def pushHistory (h : List ℚ) (e : ℚ) : List ℚ :=
  let h2 := h ++ [e]
  h2.drop (h2.length - 50)

/-- `update_noise_floor` (lines 93-97): blend the noise floor when the energy
is below twice it, then derive the threshold unconditionally. -/
def update_noise_floor (v : VoiceActivityDetector) (energy : ℚ) :
    VoiceActivityDetector :=
  let v :=
    if energy < v.noise_floor * 2 then
      { v with noise_floor := 0.95 * v.noise_floor + 0.05 * energy }
    else v
  { v with energy_threshold := v.noise_floor * 3 }

/-- `process_chunk` (lines 99-138), taking the chunk's RMS energy.  Returns
the mutated detector together with the returned `is_speaking` boolean. -/
def process_chunk (v : VoiceActivityDetector) (energy : ℚ) :
    VoiceActivityDetector × Bool :=
  let v1 : VoiceActivityDetector :=
    { v with energy_history := pushHistory v.energy_history energy }
  let v2 : VoiceActivityDetector := v1.update_noise_floor energy
  let is_voice : Bool := energy > v2.energy_threshold
  let v3 : VoiceActivityDetector :=
    if is_voice then
      { v2 with speech_frames := v2.speech_frames + 1, silence_frames := 0 }
    else
      let vs : VoiceActivityDetector :=
        { v2 with silence_frames := v2.silence_frames + 1 }
      if vs.silence_frames > vs.max_silence_frames then
        { vs with speech_frames := 0 }
      else vs
  let v4 : VoiceActivityDetector :=
    if !v3.is_speaking then
      if v3.speech_frames ≥ v3.min_speech_frames then
        { v3 with is_speaking := true }
      else v3
    else
      if v3.silence_frames > v3.max_silence_frames then
        { v3 with is_speaking := false, speech_frames := 0 }
      else v3
  (v4, v4.is_speaking)

/-- `reset` (lines 140-144). -/
def reset (v : VoiceActivityDetector) : VoiceActivityDetector :=
  { v with is_speaking := false, speech_frames := 0, silence_frames := 0 }

/-- Run the detector over a list of chunk energies. -/
def run (v : VoiceActivityDetector) (es : List ℚ) : VoiceActivityDetector :=
  es.foldl (fun s e => (s.process_chunk e).1) v

/-- Whether a chunk of the given RMS energy counts as voiced at this state:
the `energy > self.energy_threshold` test of `process_chunk`, taken against
the threshold as updated within that same call. -/
def voicedAt (v : VoiceActivityDetector) (energy : ℚ) : Bool :=
  let v := { v with energy_history := pushHistory v.energy_history energy }
  let v := v.update_noise_floor energy
  energy > v.energy_threshold

/-- Every chunk of the list is voiced at the state where it is observed. -/
def allVoiced : VoiceActivityDetector → List ℚ → Bool
  | _, [] => true
  | v, e :: es => voicedAt v e && allVoiced (v.process_chunk e).1 es

/-- Every chunk of the list is silent (not voiced) where it is observed. -/
def allSilent : VoiceActivityDetector → List ℚ → Bool
  | _, [] => true
  | v, e :: es => !voicedAt v e && allSilent (v.process_chunk e).1 es

end VoiceActivityDetector

namespace VoiceActivityDetector

@[simp] theorem update_noise_floor_speech_frames (v : VoiceActivityDetector)
    (e : ℚ) : (v.update_noise_floor e).speech_frames = v.speech_frames := by
  simp only [update_noise_floor]
  split <;> rfl

@[simp] theorem update_noise_floor_silence_frames (v : VoiceActivityDetector)
    (e : ℚ) : (v.update_noise_floor e).silence_frames = v.silence_frames := by
  simp only [update_noise_floor]
  split <;> rfl

@[simp] theorem update_noise_floor_is_speaking (v : VoiceActivityDetector)
    (e : ℚ) : (v.update_noise_floor e).is_speaking = v.is_speaking := by
  simp only [update_noise_floor]
  split <;> rfl

@[simp] theorem update_noise_floor_min_speech_frames (v : VoiceActivityDetector)
    (e : ℚ) :
    (v.update_noise_floor e).min_speech_frames = v.min_speech_frames := by
  simp only [update_noise_floor]
  split <;> rfl

@[simp] theorem update_noise_floor_max_silence_frames
    (v : VoiceActivityDetector) (e : ℚ) :
    (v.update_noise_floor e).max_silence_frames = v.max_silence_frames := by
  simp only [update_noise_floor]
  split <;> rfl

theorem process_chunk_min_speech_frames (v : VoiceActivityDetector) (e : ℚ) :
    (v.process_chunk e).1.min_speech_frames = v.min_speech_frames := by
  simp only [process_chunk]
  split_ifs <;> simp_all

theorem process_chunk_max_silence_frames (v : VoiceActivityDetector) (e : ℚ) :
    (v.process_chunk e).1.max_silence_frames = v.max_silence_frames := by
  simp only [process_chunk]
  split_ifs <;> simp_all

theorem speech_frames_le_succ (v : VoiceActivityDetector) (e : ℚ) :
    (v.process_chunk e).1.speech_frames ≤ v.speech_frames + 1 := by
  simp only [process_chunk]
  split_ifs <;> simp_all

theorem not_voiced_speech_frames (v : VoiceActivityDetector) (e : ℚ)
    (hv : voicedAt v e = false) :
    (v.process_chunk e).1.speech_frames ≤ v.speech_frames := by
  simp only [process_chunk, voicedAt] at *
  split_ifs <;> simp_all

theorem stays_silent (v : VoiceActivityDetector) (e : ℚ)
    (hs : v.is_speaking = false)
    (hf : v.speech_frames + 1 < v.min_speech_frames) :
    (v.process_chunk e).1.is_speaking = false ∧
      (v.process_chunk e).1.speech_frames < v.min_speech_frames := by
  simp only [process_chunk]
  split_ifs <;> simp_all <;> omega

end VoiceActivityDetector

namespace VoiceActivityDetector

/-- `__init__` defaults (lines 74-91). -/
def init : VoiceActivityDetector := {}

theorem silent_step (v : VoiceActivityDetector) (e : ℚ)
    (hs : v.is_speaking = false) (hf : v.speech_frames < v.min_speech_frames)
    (hv : voicedAt v e = false) :
    (v.process_chunk e).1.is_speaking = false ∧
      (v.process_chunk e).1.speech_frames < v.min_speech_frames := by
  simp only [process_chunk, voicedAt] at *
  split_ifs <;> simp_all <;> linarith

theorem run_cons (v : VoiceActivityDetector) (e : ℚ) (es : List ℚ) :
    run v (e :: es) = run (v.process_chunk e).1 es := rfl

theorem run_short_not_speaking (es : List ℚ) :
    ∀ v : VoiceActivityDetector, v.is_speaking = false →
      v.speech_frames + es.length < v.min_speech_frames →
      (run v es).is_speaking = false ∧
        (run v es).speech_frames < (run v es).min_speech_frames ∧
        (run v es).min_speech_frames = v.min_speech_frames := by
  induction es with
  | nil =>
    intro v hs hf
    simp only [List.length_nil, Nat.add_zero] at hf
    exact ⟨hs, hf, rfl⟩
  | cons e es ih =>
    intro v hs hf
    rw [run_cons]
    have hlen : v.speech_frames + 1 < v.min_speech_frames := by
      simp only [List.length_cons] at hf; omega
    have hst := stays_silent v e hs hlen
    have hle := speech_frames_le_succ v e
    have hmin := process_chunk_min_speech_frames v e
    have := ih (v.process_chunk e).1 hst.1 (by
      simp only [List.length_cons] at hf
      omega)
    exact ⟨this.1, this.2.1, by rw [this.2.2, hmin]⟩

theorem run_silent_not_speaking (es : List ℚ) :
    ∀ v : VoiceActivityDetector, v.is_speaking = false →
      v.speech_frames < v.min_speech_frames →
      allSilent v es = true →
      (run v es).is_speaking = false := by
  induction es with
  | nil => intro v hs _ _; exact hs
  | cons e es ih =>
    intro v hs hf hsil
    rw [run_cons]
    simp only [allSilent, Bool.and_eq_true, Bool.not_eq_true'] at hsil
    have hst := silent_step v e hs hf hsil.1
    have hmin := process_chunk_min_speech_frames v e
    exact ih (v.process_chunk e).1 hst.1 (by rw [hmin]; exact hst.2) hsil.2

theorem speaking_to_silent (v : VoiceActivityDetector) (e : ℚ)
    (h1 : v.is_speaking = true)
    (h2 : (v.process_chunk e).1.is_speaking = false) :
    (v.process_chunk e).1.silence_frames > v.max_silence_frames := by
  simp only [process_chunk] at *
  split_ifs at * <;> simp_all

theorem silent_to_speaking (v : VoiceActivityDetector) (e : ℚ)
    (h1 : v.is_speaking = false)
    (h2 : (v.process_chunk e).1.is_speaking = true) :
    (v.process_chunk e).1.speech_frames ≥ v.min_speech_frames := by
  simp only [process_chunk] at *
  split_ifs at * <;> simp_all

end VoiceActivityDetector

open VoiceActivityDetector in
/-- C6: the segmenter's `is_speaking` flips false→true only when, after the
chunk's counter update, `speech_frames ≥ min_speech_frames` (default 3), and
true→false only when `silence_frames > max_silence_frames` (default 10);
moreover, after `reset()`, fewer than `min_speech_frames` consecutive
above-threshold chunks followed by any run of below-threshold chunks never
set `is_speaking` to true. -/
theorem C6_segmenter_hysteresis :
    (∀ (v : VoiceActivityDetector) (e : ℚ), v.is_speaking = false →
      (v.process_chunk e).1.is_speaking = true →
      (v.process_chunk e).1.speech_frames ≥ v.min_speech_frames) ∧
    (∀ (v : VoiceActivityDetector) (e : ℚ), v.is_speaking = true →
      (v.process_chunk e).1.is_speaking = false →
      (v.process_chunk e).1.silence_frames > v.max_silence_frames) ∧
    (∀ (v0 : VoiceActivityDetector) (es1 es2 : List ℚ),
      es1.length < v0.reset.min_speech_frames →
      allVoiced v0.reset es1 = true →
      allSilent (run v0.reset es1) es2 = true →
      (run (run v0.reset es1) es2).is_speaking = false) ∧
    init.min_speech_frames = 3 ∧ init.max_silence_frames = 10 := by
  refine ⟨silent_to_speaking, speaking_to_silent, ?_, rfl, rfl⟩
  intro v0 es1 es2 hlen _hvoiced hsil
  have h1 := run_short_not_speaking es1 v0.reset rfl (by
    simpa [reset] using hlen)
  exact run_silent_not_speaking es2 (run v0.reset es1) h1.1 h1.2.1 hsil

open VoiceActivityDetector in
/-- C6 witness: with the default detector after `reset`, two above-threshold
chunks (energy 1) followed by four silent chunks (energy 0) leave
`is_speaking` false. -/
theorem C6_segmenter_hysteresis_witness :
    (run (run init.reset [1, 1]) [0, 0, 0, 0]).is_speaking = false :=
  C6_segmenter_hysteresis.2.2.1 init [1, 1] [0, 0, 0, 0]
    (by norm_num [init, reset])
    (by norm_num [allVoiced, voicedAt, process_chunk, update_noise_floor,
      pushHistory, init, reset])
    (by norm_num [allSilent, allVoiced, voicedAt, process_chunk,
      update_noise_floor, pushHistory, init, reset, run])

namespace VoiceActivityDetector

theorem process_chunk_noise_floor (v : VoiceActivityDetector) (e : ℚ) :
    (v.process_chunk e).1.noise_floor = (v.update_noise_floor e).noise_floor := by
  simp only [process_chunk, update_noise_floor]
  split_ifs <;> simp_all

theorem process_chunk_energy_threshold (v : VoiceActivityDetector) (e : ℚ) :
    (v.process_chunk e).1.energy_threshold
      = (v.update_noise_floor e).energy_threshold := by
  simp only [process_chunk, update_noise_floor]
  split_ifs <;> simp_all

theorem update_noise_floor_blend (v : VoiceActivityDetector) (e : ℚ)
    (h : e < 2 * v.noise_floor) :
    (v.update_noise_floor e).noise_floor
      = 0.95 * v.noise_floor + 0.05 * e := by
  simp only [update_noise_floor]
  rw [if_pos (by linarith)]

theorem update_noise_floor_keep (v : VoiceActivityDetector) (e : ℚ)
    (h : ¬ e < 2 * v.noise_floor) :
    (v.update_noise_floor e).noise_floor = v.noise_floor := by
  simp only [update_noise_floor]
  rw [if_neg (by rw [mul_comm] at h; exact h)]

theorem update_noise_floor_threshold (v : VoiceActivityDetector) (e : ℚ) :
    (v.update_noise_floor e).energy_threshold
      = 3 * (v.update_noise_floor e).noise_floor := by
  simp only [update_noise_floor]
  split_ifs <;> simp [mul_comm]

end VoiceActivityDetector

open VoiceActivityDetector in
/-- C8: on each observed chunk, the noise floor is blended as
`0.95*noise_floor + 0.05*energy` exactly when the chunk's RMS energy is below
`2*noise_floor` (unchanged otherwise), and the energy threshold is then set
to `3*noise_floor` (against the updated floor) unconditionally. -/
theorem C8_noise_floor_adaptation :
    ∀ (v : VoiceActivityDetector) (energy : ℚ),
      (energy < 2 * v.noise_floor →
        (v.process_chunk energy).1.noise_floor
          = 0.95 * v.noise_floor + 0.05 * energy) ∧
      (¬ energy < 2 * v.noise_floor →
        (v.process_chunk energy).1.noise_floor = v.noise_floor) ∧
      (v.process_chunk energy).1.energy_threshold
        = 3 * (v.process_chunk energy).1.noise_floor := by
  intro v e
  refine ⟨?_, ?_, ?_⟩
  · intro h
    rw [process_chunk_noise_floor]
    have : ({ v with energy_history := pushHistory v.energy_history e} :
        VoiceActivityDetector).noise_floor = v.noise_floor := rfl
    rw [update_noise_floor_blend _ _ (by rw [this]; exact h)]
  · intro h
    rw [process_chunk_noise_floor]
    exact update_noise_floor_keep _ _ h
  · rw [process_chunk_energy_threshold, process_chunk_noise_floor]
    exact update_noise_floor_threshold _ _

open VoiceActivityDetector in
/-- C8 witness: for the default detector, a chunk of energy `0.001` (below
`2*0.001`) blends the floor to `0.00095 + 0.00005`, a chunk of energy `1`
leaves it at `0.001`, and in both cases the threshold equals three times the
updated floor. -/
theorem C8_noise_floor_adaptation_witness :
    (init.process_chunk 0.001).1.noise_floor = 0.95 * 0.001 + 0.05 * 0.001 ∧
    (init.process_chunk 1).1.noise_floor = 0.001 ∧
    (init.process_chunk 1).1.energy_threshold
      = 3 * (init.process_chunk 1).1.noise_floor :=
  ⟨(C8_noise_floor_adaptation init 0.001).1 (by norm_num [init]),
   (C8_noise_floor_adaptation init 1).2.1 (by norm_num [init]),
   (C8_noise_floor_adaptation init 1).2.2⟩

open VoiceActivityDetector in
/-- C10: `reset()` zeroes `is_speaking`, `speech_frames` and `silence_frames`
and leaves the adaptive `noise_floor`, the `energy_threshold` and the
`energy_history` unchanged, so the learned ambient-noise estimate persists. -/
theorem C10_reset_preserves_noise_state :
    ∀ v : VoiceActivityDetector,
      (v.reset).is_speaking = false ∧
      (v.reset).speech_frames = 0 ∧
      (v.reset).silence_frames = 0 ∧
      (v.reset).noise_floor = v.noise_floor ∧
      (v.reset).energy_threshold = v.energy_threshold ∧
      (v.reset).energy_history = v.energy_history :=
  fun _ => ⟨rfl, rfl, rfl, rfl, rfl, rfl⟩

/-! ## AudioBuffer (ai/api/streaming.py, lines 121-172) -/

/-- `MAX_BUFFER_SIZE = 1024 * 1024` (line 28). -/
def MAX_BUFFER_SIZE : ℕ := 1024 * 1024

/-- `AUDIO_CHUNK_SIZE = 4096` (line 27). -/
def AUDIO_CHUNK_SIZE : ℕ := 4096

/-- State of `AudioBuffer` (lines 121-130): the byte buffer, its capacity and
the two `asyncio.Event`s, modelled as booleans (`true` = event set). -/
structure AudioBuffer where
  max_size : ℕ := MAX_BUFFER_SIZE
  buffer : List ℕ := []
  not_full : Bool := true
  not_empty : Bool := false
deriving Repr, DecidableEq

namespace AudioBuffer

/-- `write` (lines 132-141): reject (clearing the not-full event) when the
incoming bytes would push the buffer past `max_size`, else append and set the
not-empty event.  Returns the mutated buffer and the accepted boolean. -/
def write (b : AudioBuffer) (data : List ℕ) : AudioBuffer × Bool :=
  if b.buffer.length + data.length > b.max_size then
    ({ b with not_full := false }, false)
  else
    ({ b with buffer := b.buffer ++ data, not_empty := true }, true)

/-- `read` (lines 143-159), the body after `await self._not_empty.wait()`:
take everything when `size` is `none` or at least the buffered length, else
the first `size` bytes; clear the not-empty event when the buffer empties and
set the not-full event.  Returns the mutated buffer and the bytes read. -/
def read (b : AudioBuffer) (size : Option ℕ) : AudioBuffer × List ℕ :=
  let (data, rest) :=
    match size with
    | none => (b.buffer, ([] : List ℕ))
    | some n =>
      if n ≥ b.buffer.length then (b.buffer, [])
      else (b.buffer.take n, b.buffer.drop n)
  ({ b with
      buffer := rest
      not_empty := if rest.isEmpty then false else b.not_empty
      not_full := true }, data)

/-- `wait_not_full` (lines 161-163): a waiter proceeds exactly when the
not-full event is set. -/
def wait_not_full (b : AudioBuffer) : Bool := b.not_full

/-- `size` property (lines 165-167). -/
def size (b : AudioBuffer) : ℕ := b.buffer.length

/-- `clear` (lines 169-172). -/
def clear (b : AudioBuffer) : AudioBuffer :=
  { b with buffer := [], not_empty := false, not_full := true }

end AudioBuffer

/-- One buffer operation of a client trace: a `write` of some bytes or a
`read` with an optional size bound. -/
inductive BufOp where
  | write (data : List ℕ)
  | read (size : Option ℕ)
deriving Repr, DecidableEq

/-- A trace state: the buffer plus the concatenation of all bytes returned by
completed reads and of all accepted written bytes, in order. -/
structure BufTrace where
  buf : AudioBuffer := {}
  readBytes : List ℕ := []
  writtenBytes : List ℕ := []
deriving Repr, DecidableEq

/-- Execute one operation.  A `read` completes only when the not-empty event
is set (otherwise `await self._not_empty.wait()` suspends and the read never
returns in this trace), which is exactly when the buffer is non-empty. -/
def BufTrace.step (t : BufTrace) : BufOp → BufTrace
  | .write d =>
    let (b, ok) := t.buf.write d
    { t with buf := b
             writtenBytes := if ok then t.writtenBytes ++ d else t.writtenBytes }
  | .read n =>
    if t.buf.not_empty then
      let (b, data) := t.buf.read n
      { t with buf := b, readBytes := t.readBytes ++ data }
    else t

/-- Execute a trace from an empty buffer of capacity `max`. -/
def BufTrace.run (max : ℕ) (ops : List BufOp) : BufTrace :=
  ops.foldl BufTrace.step { buf := { max_size := max } }

/-- C4: whenever the buffered length plus the incoming length exceeds
`max_size`, `write` returns false and the buffer contents are unchanged (no
partial append of the rejected bytes). -/
theorem C4_write_overflow_rejected_unchanged :
    ∀ (b : AudioBuffer) (data : List ℕ),
      b.buffer.length + data.length > b.max_size →
      (b.write data).2 = false ∧ (b.write data).1.buffer = b.buffer := by
  intro b data h
  unfold AudioBuffer.write
  rw [if_pos h]
  exact ⟨rfl, rfl⟩

/-- C4 witness: a buffer of capacity 4 holding 3 bytes rejects a 2-byte write
and keeps its contents. -/
theorem C4_write_overflow_rejected_unchanged_witness :
    (AudioBuffer.write { max_size := 4, buffer := [1, 2, 3] } [9, 9]).2 = false ∧
    (AudioBuffer.write { max_size := 4, buffer := [1, 2, 3] } [9, 9]).1.buffer
      = [1, 2, 3] :=
  C4_write_overflow_rejected_unchanged
    { max_size := 4, buffer := [1, 2, 3] } [9, 9] (by decide)

/-- The trace invariant: reads so far plus the residual buffer equal the
accepted writes so far, and a cleared not-empty event means an empty buffer. -/
def BufTrace.Inv (t : BufTrace) : Prop :=
  t.readBytes ++ t.buf.buffer = t.writtenBytes ∧
    (t.buf.not_empty = false → t.buf.buffer = [])

theorem BufTrace.step_inv (t : BufTrace) (op : BufOp) (h : t.Inv) :
    (t.step op).Inv := by
  obtain ⟨h1, h2⟩ := h
  cases op with
  | write d =>
    by_cases hc : t.buf.buffer.length + d.length > t.buf.max_size
    · simp only [Inv, step, AudioBuffer.write, if_pos hc]
      exact ⟨h1, h2⟩
    · simp only [Inv, step, AudioBuffer.write, if_neg hc]
      refine ⟨?_, by simp⟩
      rw [← List.append_assoc, h1]
      simp
  | read n =>
    by_cases hne : t.buf.not_empty = true
    · simp only [Inv, step, if_pos hne, AudioBuffer.read]
      cases n with
      | none =>
        refine ⟨by simpa using h1, by simp⟩
      | some m =>
        by_cases hm : m ≥ t.buf.buffer.length
        · simp only [if_pos hm]
          refine ⟨by simpa using h1, by simp⟩
        · simp only [if_neg hm]
          refine ⟨by rw [List.append_assoc, List.take_append_drop]; exact h1, ?_⟩
          intro hfalse
          by_cases hdrop : (t.buf.buffer.drop m).isEmpty
          · rw [List.isEmpty_iff, List.drop_eq_nil_iff] at hdrop
            omega
          · simp only [hdrop, if_false] at hfalse
            simp_all
    · simp only [Inv, step, if_neg hne]
      exact ⟨h1, h2⟩

theorem BufTrace.run_inv (max : ℕ) (ops : List BufOp) :
    (BufTrace.run max ops).Inv := by
  have hstep : ∀ (l : List BufOp) (t : BufTrace), t.Inv →
      (l.foldl BufTrace.step t).Inv := by
    intro l
    induction l with
    | nil => intro t h; exact h
    | cons op l ih => intro t h; exact ih (t.step op) (t.step_inv op h)
  exact hstep ops _ ⟨rfl, fun _ => rfl⟩

/-- C5: along every trace of writes and reads, the concatenation of the bytes
returned by reads is a prefix of the concatenation of the accepted written
bytes (their difference being exactly the residual buffer), and appending one
unbounded `read` drains the buffer so that the reads equal the writes. -/
theorem C5_roundtrip_order_preserved :
    ∀ (max : ℕ) (ops : List BufOp),
      (BufTrace.run max ops).readBytes ++ (BufTrace.run max ops).buf.buffer
          = (BufTrace.run max ops).writtenBytes ∧
      (∃ rest, (BufTrace.run max ops).readBytes ++ rest
          = (BufTrace.run max ops).writtenBytes) ∧
      (BufTrace.run max (ops ++ [BufOp.read none])).readBytes
          = (BufTrace.run max (ops ++ [BufOp.read none])).writtenBytes := by
  intro max ops
  obtain ⟨h1, h2⟩ := BufTrace.run_inv max ops
  refine ⟨h1, ⟨_, h1⟩, ?_⟩
  have hrun : BufTrace.run max (ops ++ [BufOp.read none])
      = (BufTrace.run max ops).step (BufOp.read none) := by
    simp [BufTrace.run, List.foldl_append]
  rw [hrun]
  set t := BufTrace.run max ops with ht
  by_cases hne : t.buf.not_empty
  · simp only [BufTrace.step, hne, if_pos, AudioBuffer.read]
    simpa using h1
  · simp only [BufTrace.step, hne, Bool.false_eq_true, if_false]
    have := h2 (by simpa using hne)
    rw [← h1, this, List.append_nil]

/-- C9: a write strictly larger than `max_size` is rejected from every buffer
state (the empty buffer included); every rejected write clears the not-full
event even when free space remains; a waiter on not-full proceeds only when
the event is set, the event is never set by a write, and it is set again by
`read` and by `clear`. -/
theorem C9_oversize_writes_and_not_full_signal :
    (∀ (b : AudioBuffer) (data : List ℕ), data.length > b.max_size →
      (b.write data).2 = false) ∧
    (∀ (b : AudioBuffer) (data : List ℕ), (b.write data).2 = false →
      (b.write data).1.not_full = false ∧
        (b.write data).1.wait_not_full = false) ∧
    (∀ (b : AudioBuffer) (data : List ℕ), (b.write data).1.not_full = true →
      b.not_full = true) ∧
    (∀ (b : AudioBuffer) (n : Option ℕ), (b.read n).1.not_full = true) ∧
    (∀ b : AudioBuffer, b.clear.not_full = true) := by
  refine ⟨?_, ?_, ?_, ?_, fun _ => rfl⟩
  · intro b data h
    unfold AudioBuffer.write
    rw [if_pos (by omega)]
  · intro b data h
    unfold AudioBuffer.write at *
    by_cases hc : b.buffer.length + data.length > b.max_size
    · rw [if_pos hc]
      exact ⟨rfl, rfl⟩
    · rw [if_neg hc] at h
      exact absurd h (by simp)
  · intro b data h
    unfold AudioBuffer.write at h
    by_cases hc : b.buffer.length + data.length > b.max_size
    · rw [if_pos hc] at h
      exact absurd h (by simp)
    · rw [if_neg hc] at h
      exact h
  · intro b n
    unfold AudioBuffer.read
    rfl

/-- C9 witness: an empty buffer of capacity 4 (free space available, not-full
set) rejects a 5-byte write, leaving the not-full event cleared so a waiter
would suspend; a subsequent `clear` sets it again. -/
theorem C9_oversize_writes_and_not_full_signal_witness :
    (AudioBuffer.write { max_size := 4 } [1, 2, 3, 4, 5]).2 = false ∧
    (AudioBuffer.write { max_size := 4 } [1, 2, 3, 4, 5]).1.wait_not_full
      = false ∧
    (AudioBuffer.clear { max_size := 4, not_full := false }).not_full = true :=
  ⟨C9_oversize_writes_and_not_full_signal.1 { max_size := 4 }
      [1, 2, 3, 4, 5] (by decide),
   (C9_oversize_writes_and_not_full_signal.2.1 { max_size := 4 }
      [1, 2, 3, 4, 5]
      (C9_oversize_writes_and_not_full_signal.1 { max_size := 4 }
        [1, 2, 3, 4, 5] (by decide))).2,
   C9_oversize_writes_and_not_full_signal.2.2.2.2
     { max_size := 4, not_full := false }⟩

/-! ## StreamingSession (ai/api/streaming.py, lines 46-532) -/

/-- `StreamState` (lines 46-51). -/
inductive StreamState where
  | idle
  | listening
  | processing
  | speaking
  | error
deriving Repr, DecidableEq

/-- `MessageType` (lines 54-69).  The wire tag `transcript_partial` is named
`transcriptPartial` here. -/
inductive MessageType where
  | audio_chunk
  | start_stream
  | stop_stream
  | config
  | ping
  | transcriptPartial
  | transcript_final
  | audio_response
  | state_change
  | error
  | pong
  | metrics
deriving Repr, DecidableEq

/-- `StreamConfig` (lines 72-84) with its default field values. -/
structure StreamConfig where
  language : String := "en"
  sample_rate : ℕ := 16000
  channels : ℕ := 1
  encoding : String := "pcm_s16le"
  interim_results : Bool := true
  voice_activity_detection : Bool := true
  auto_punctuation : Bool := true
  profanity_filter : Bool := false
  voice_profile_id : Option String := none
  target_language : Option String := none
deriving Repr, DecidableEq

/-- The payload of a `config` message: for each of the ten `StreamConfig`
attributes, optionally a new (well-typed) value.  `_update_config` iterates
over the incoming dict and assigns every key for which `hasattr(self.config,
key)` holds, so unknown keys — a patch with all fields `none` — are ignored. -/
structure ConfigPatch where
  language : Option String := none
  sample_rate : Option ℕ := none
  channels : Option ℕ := none
  encoding : Option String := none
  interim_results : Option Bool := none
  voice_activity_detection : Option Bool := none
  auto_punctuation : Option Bool := none
  profanity_filter : Option Bool := none
  voice_profile_id : Option (Option String) := none
  target_language : Option (Option String) := none
deriving Repr, DecidableEq

/-- The `setattr` loop of `_update_config` (lines 409-411): every field
present in the patch is assigned, the rest keep their current values. -/
def applyConfig (c : StreamConfig) (p : ConfigPatch) : StreamConfig :=
  { language := p.language.getD c.language
    sample_rate := p.sample_rate.getD c.sample_rate
    channels := p.channels.getD c.channels
    encoding := p.encoding.getD c.encoding
    interim_results := p.interim_results.getD c.interim_results
    voice_activity_detection :=
      p.voice_activity_detection.getD c.voice_activity_detection
    auto_punctuation := p.auto_punctuation.getD c.auto_punctuation
    profanity_filter := p.profanity_filter.getD c.profanity_filter
    voice_profile_id := p.voice_profile_id.getD c.voice_profile_id
    target_language := p.target_language.getD c.target_language }

/-- An entry of the outbound `_send_queue`: a JSON control message reduced to
its type tag, or a raw binary audio frame. -/
inductive OutMsg where
  | ctrl (t : MessageType)
  | audio (bytes : List ℕ)
deriving Repr, DecidableEq

/-- A transcription result dict: `{text, is_final?}`; an absent `is_final`
key falls back to the `is_final` argument of `_process_audio`. -/
structure TranscribeResult where
  text : String
  is_final : Option Bool := none
deriving Repr, DecidableEq

/-- `transcribe_func(audio, language, interim)` reduced to its data argument;
`Except.error` models a raised exception. -/
abbrev TranscribeFunc := List ℕ → Except String TranscribeResult

/-- `synthesize_func(text, voice, language)` reduced to its text argument. -/
abbrev SynthesizeFunc := String → Except String (List ℕ)

/-- `StreamingSession` state (lines 182-208): the config, session state,
owned audio buffer, the outbound queue, and the metrics counters the claims
observe (`errors`, `transcripts_generated`, `audio_bytes_received`). -/
structure StreamingSession where
  config : StreamConfig := {}
  state : StreamState := .idle
  audio_buffer : AudioBuffer := {}
  send_queue : List OutMsg := []
  errors : ℕ := 0
  transcripts_generated : ℕ := 0
  audio_bytes_received : ℕ := 0
deriving Repr, DecidableEq

namespace StreamingSession

/-- `_send_message` (lines 519-525): enqueue a control message. -/
def send_message (s : StreamingSession) (t : MessageType) : StreamingSession :=
  { s with send_queue := s.send_queue ++ [OutMsg.ctrl t] }

/-- `_send_error` (lines 527-532). -/
def send_error (s : StreamingSession) : StreamingSession :=
  s.send_message .error

/-- `_change_state` (lines 508-517): set the state, then enqueue a
`state_change` notification. -/
def change_state (s : StreamingSession) (ns : StreamState) : StreamingSession :=
  ({ s with state := ns }).send_message .state_change

/-- `_handle_audio` (lines 353-363): count the bytes, write them to the
buffer and report a buffer overflow as an `error` message, dropping the
frame.  (The backpressure `asyncio.sleep` is a pure delay and has no state
effect.) -/
def handle_audio (s : StreamingSession) (data : List ℕ) : StreamingSession :=
  let s := { s with
    audio_bytes_received := s.audio_bytes_received + data.length }
  let wr := s.audio_buffer.write data
  let s := { s with audio_buffer := wr.1 }
  if wr.2 then s else s.send_error

/-- `_update_config` (lines 407-416): assign the recognized fields, then
enqueue the `config` confirmation message. -/
def update_config (s : StreamingSession) (p : ConfigPatch) : StreamingSession :=
  ({ s with config := applyConfig s.config p }).send_message .config

/-- `_start_stream` (lines 390-395): apply the optional config payload, then
transition to `LISTENING`. -/
def start_stream (s : StreamingSession) (cfg : Option ConfigPatch) :
    StreamingSession :=
  let s :=
    match cfg with
    | some p => s.update_config p
    | none => s
  s.change_state .listening

end StreamingSession

/-- The chunking loop of `_generate_response` (lines 492-496): split the
synthesized bytes into 8192-byte pieces. -/
def chunkPieces : List ℕ → List (List ℕ)
  | [] => []
  | x :: xs => ((x :: xs).take 8192) :: chunkPieces ((x :: xs).drop 8192)
termination_by l => l.length
decreasing_by
  simp only [List.length_drop, List.length_cons]
  omega

namespace StreamingSession

/-- `_generate_response` (lines 474-506).  Returns the new session and the
escaped exception, if any; the `finally` block (back to `LISTENING`) runs in
both cases. -/
def generate_response (sf : Option SynthesizeFunc) (s : StreamingSession)
    (text : String) : StreamingSession × Option String :=
  match sf with
  | none => (s, none)
  | some g =>
    let s := s.change_state .speaking
    match g text with
    | .error e => (s.change_state .listening, some e)
    | .ok audio_data =>
      let s :=
        if audio_data.isEmpty then s
        else
          let s := { s with send_queue :=
            s.send_queue ++ (chunkPieces audio_data).map OutMsg.audio }
          s.send_message .audio_response
      (s.change_state .listening, none)

/-- `_process_audio` (lines 418-472).  Returns the new session, the escaped
exception (if the transcription or synthesis call raised) and the number of
transcription-collaborator invocations made (0 or 1).  The `finally` block
(`PROCESSING → LISTENING` when still processing) runs in every case. -/
def process_audio (tf : Option TranscribeFunc) (sf : Option SynthesizeFunc)
    (s : StreamingSession) (audio_data : List ℕ) (is_final : Bool) :
    StreamingSession × Option String × ℕ :=
  match tf with
  | none => (s, none, 0)
  | some f =>
    let s := s.change_state .processing
    match f audio_data with
    | .error e =>
      let s := if s.state = .processing then s.change_state .listening else s
      (s, some e, 1)
    | .ok result =>
      let transcript := result.text
      let is_final_result := result.is_final.getD is_final
      let step :=
        if transcript ≠ "" then
          let s := { s with
            transcripts_generated := s.transcripts_generated + 1 }
          if is_final_result then
            let s := s.send_message .transcript_final
            if sf.isSome && s.config.voice_profile_id.isSome then
              generate_response sf s transcript
            else (s, none)
          else if s.config.interim_results then
            (s.send_message .transcriptPartial, none)
          else (s, none)
        else (s, none)
      let s := step.1
      let s := if s.state = .processing then s.change_state .listening else s
      (s, step.2, 1)

/-- One iteration of `_process_loop` (lines 319-351): skip (sleep) unless
`LISTENING` with at least `AUDIO_CHUNK_SIZE` buffered bytes, else read up to
`AUDIO_CHUNK_SIZE * 4` bytes and process them; a propagating exception
increments the error counter.  The second component counts transcription
calls. -/
def process_loop_step (tf : Option TranscribeFunc) (sf : Option SynthesizeFunc)
    (s : StreamingSession) : StreamingSession × ℕ :=
  if s.state ≠ .listening then (s, 0)
  else if s.audio_buffer.size < AUDIO_CHUNK_SIZE then (s, 0)
  else
    let rd := s.audio_buffer.read (some (AUDIO_CHUNK_SIZE * 4))
    let s := { s with audio_buffer := rd.1 }
    if rd.2.isEmpty then (s, 0)
    else
      let pr := process_audio tf sf s rd.2 false
      match pr.2.1 with
      | some _ => ({ pr.1 with errors := pr.1.errors + 1 }, pr.2.2)
      | none => (pr.1, pr.2.2)

/-- Iterate `_process_loop` until it would sleep (wrong state or not enough
buffered audio), accumulating the transcription-call count.  The fuel bounds
the number of iterations. -/
def process_loop (tf : Option TranscribeFunc) (sf : Option SynthesizeFunc) :
    ℕ → StreamingSession → StreamingSession × ℕ
  | 0, s => (s, 0)
  | fuel + 1, s =>
    if s.state = .listening ∧ AUDIO_CHUNK_SIZE ≤ s.audio_buffer.size then
      let st := process_loop_step tf sf s
      let rest := process_loop tf sf fuel st.1
      (rest.1, st.2 + rest.2)
    else (s, 0)

/-- `_stop_stream` (lines 397-405): drain the remaining buffer through
`_process_audio` with `is_final=True`, then go `IDLE` (skipped when the
processing raised, since the exception propagates). -/
def stop_stream (tf : Option TranscribeFunc) (sf : Option SynthesizeFunc)
    (s : StreamingSession) : StreamingSession × Option String × ℕ :=
  if s.audio_buffer.size > 0 then
    let rd := s.audio_buffer.read none
    let s := { s with audio_buffer := rd.1 }
    if rd.2.isEmpty then (s.change_state .idle, none, 0)
    else
      let pr := process_audio tf sf s rd.2 true
      match pr.2.1 with
      | some e => (pr.1, some e, pr.2.2)
      | none => (pr.1.change_state .idle, none, pr.2.2)
  else (s.change_state .idle, none, 0)

end StreamingSession

/-- An inbound control message (`_handle_message`, lines 365-388), reduced to
its dispatch-relevant content.  A base64 `audio_chunk` payload is modelled by
its decoded bytes. -/
inductive InMsg where
  | start_stream (cfg : Option ConfigPatch)
  | stop_stream
  | config (cfg : ConfigPatch)
  | ping
  | audio_chunk (data : List ℕ)
deriving Repr, DecidableEq

namespace StreamingSession

/-- `_handle_message` (lines 365-388): dispatch on the message type.  The
returned components are the new session, the escaped exception (possible only
through `_stop_stream`) and the transcription-call count. -/
def handle_message (tf : Option TranscribeFunc) (sf : Option SynthesizeFunc)
    (s : StreamingSession) (m : InMsg) :
    StreamingSession × Option String × ℕ :=
  match m with
  | .start_stream cfg => (s.start_stream cfg, none, 0)
  | .stop_stream => s.stop_stream tf sf
  | .config p => (s.update_config p, none, 0)
  | .ping => (s.send_message .pong, none, 0)
  | .audio_chunk data => (s.handle_audio data, none, 0)

end StreamingSession

/-- A session mid-utterance: the process loop has moved it to `PROCESSING`
and the current utterance is not yet complete. -/
def midUtteranceSession : StreamingSession := { state := .processing }

/-- C3 counterexample: a `config` message handled while the session is mid
utterance (state `PROCESSING`) changes `StreamConfig.language` from "en" to
"fr" immediately — the fields do not stay unchanged until the utterance
completes, because `_handle_message` dispatches to `_update_config` without
consulting the session state. -/
theorem C3_counterexample_config_mutated_mid_utterance :
    midUtteranceSession.state = .processing ∧
    midUtteranceSession.config.language = "en" ∧
    (midUtteranceSession.handle_message none none
        (InMsg.config { language := some "fr" })).1.config.language = "fr" ∧
    (midUtteranceSession.handle_message none none
        (InMsg.config { language := some "fr" })).1.state = .processing :=
  ⟨rfl, rfl, rfl, rfl⟩

/-- C3 (amended): a config-update message is applied as soon as it is
handled, regardless of whether an utterance is in progress: in one atomic
step (no suspension point inside the assignment loop) every recognized field
is assigned, a `config` confirmation message is enqueued, and the session
state, buffer and error status are untouched. -/
theorem C3_config_update_applied_immediately :
    ∀ (tf : Option TranscribeFunc) (sf : Option SynthesizeFunc)
      (s : StreamingSession) (p : ConfigPatch),
      (s.handle_message tf sf (InMsg.config p)).1.config
          = applyConfig s.config p ∧
      (s.handle_message tf sf (InMsg.config p)).1.state = s.state ∧
      (s.handle_message tf sf (InMsg.config p)).1.send_queue
          = s.send_queue ++ [OutMsg.ctrl .config] ∧
      (s.handle_message tf sf (InMsg.config p)).1.audio_buffer
          = s.audio_buffer ∧
      (s.handle_message tf sf (InMsg.config p)).2.1 = none :=
  fun _ _ _ _ => ⟨rfl, rfl, rfl, rfl, rfl⟩

/-- C7: when a binary frame arrives and the buffer write is rejected, the
ingest path enqueues an `error` message, drops the frame (buffer contents
unchanged), counts the bytes as received, and leaves the session state at
`LISTENING` — the session is not torn down. -/
theorem C7_overflow_reported_session_alive :
    ∀ (s : StreamingSession) (data : List ℕ),
      s.state = .listening →
      s.audio_buffer.buffer.length + data.length > s.audio_buffer.max_size →
      (s.handle_audio data).audio_buffer.buffer = s.audio_buffer.buffer ∧
      (s.handle_audio data).send_queue = s.send_queue ++ [OutMsg.ctrl .error] ∧
      (s.handle_audio data).state = .listening ∧
      (s.handle_audio data).audio_bytes_received
          = s.audio_bytes_received + data.length := by
  intro s data hstate hover
  simp only [StreamingSession.handle_audio, AudioBuffer.write,
    StreamingSession.send_error, StreamingSession.send_message]
  rw [if_pos hover]
  simp [hstate]

/-- C7 witness: a listening session whose 4-byte buffer holds 3 bytes gets a
2-byte frame; the frame is dropped, an error message is enqueued and the
session stays `LISTENING`. -/
theorem C7_overflow_reported_session_alive_witness :
    (StreamingSession.handle_audio
        { state := .listening,
          audio_buffer := { max_size := 4, buffer := [1, 2, 3],
                            not_empty := true } }
        [9, 9]).send_queue = [OutMsg.ctrl .error] ∧
    (StreamingSession.handle_audio
        { state := .listening,
          audio_buffer := { max_size := 4, buffer := [1, 2, 3],
                            not_empty := true } }
        [9, 9]).state = .listening :=
  ⟨((C7_overflow_reported_session_alive
      { state := .listening,
        audio_buffer := { max_size := 4, buffer := [1, 2, 3],
                          not_empty := true } }
      [9, 9] rfl (by decide)).2.1),
   ((C7_overflow_reported_session_alive
      { state := .listening,
        audio_buffer := { max_size := 4, buffer := [1, 2, 3],
                          not_empty := true } }
      [9, 9] rfl (by decide)).2.2.1)⟩

/-! ### Collaborator failures (claim C2) -/

theorem isEmpty_false_of_length_pos {α : Type} (l : List α)
    (h : 0 < l.length) : l.isEmpty = false := by
  cases l with
  | nil => simp at h
  | cons x xs => rfl

theorem AudioBuffer.read_some_nonempty (b : AudioBuffer) (n : ℕ)
    (h : 0 < b.buffer.length) (hn : 0 < n) :
    ((b.read (some n)).2).isEmpty = false := by
  simp only [AudioBuffer.read]
  by_cases hm : n ≥ b.buffer.length
  · rw [if_pos hm]
    exact isEmpty_false_of_length_pos _ h
  · rw [if_neg hm]
    exact isEmpty_false_of_length_pos _ (by simp; omega)

theorem StreamingSession.process_audio_transcribe_error (f : TranscribeFunc)
    (sf : Option SynthesizeFunc) (s : StreamingSession) (a : List ℕ)
    (fin : Bool) (e : String) (hf : f a = .error e) :
    StreamingSession.process_audio (some f) sf s a fin
      = ((s.change_state .processing).change_state .listening, some e, 1) := by
  simp only [StreamingSession.process_audio, hf]
  rfl

theorem StreamingSession.process_audio_synthesis_error (f : TranscribeFunc)
    (g : SynthesizeFunc) (s : StreamingSession) (a : List ℕ) (fin : Bool)
    (t : String) (e : String)
    (hf : f a = .ok { text := t, is_final := some true })
    (ht : ¬ t = "")
    (hvp : s.config.voice_profile_id.isSome = true)
    (hg : g t = .error e) :
    StreamingSession.process_audio (some f) (some g) s a fin
      = (let s1 := s.change_state .processing
         let s2 := { s1 with
           transcripts_generated := s1.transcripts_generated + 1 }
         let s3 := s2.send_message .transcript_final
         ((s3.change_state .speaking).change_state .listening, some e, 1)) := by
  simp only [StreamingSession.process_audio, hf,
    StreamingSession.generate_response, hg, Option.getD,
    StreamingSession.change_state, StreamingSession.send_message]
  rw [if_pos ht]
  simp [hvp]

theorem StreamingSession.loop_step_transcribe_error
    (s : StreamingSession) (f : TranscribeFunc) (sf : Option SynthesizeFunc)
    (e : String) (hstate : s.state = .listening)
    (hsize : AUDIO_CHUNK_SIZE ≤ s.audio_buffer.size)
    (hf : ∀ a, f a = .error e) :
    (StreamingSession.process_loop_step (some f) sf s).1.errors
        = s.errors + 1 ∧
    (StreamingSession.process_loop_step (some f) sf s).1.state
        = .listening ∧
    (StreamingSession.process_loop_step (some f) sf s).1.send_queue
        = s.send_queue
            ++ [OutMsg.ctrl .state_change, OutMsg.ctrl .state_change] := by
  have hpos : 0 < s.audio_buffer.buffer.length := by
    simp only [AudioBuffer.size, AUDIO_CHUNK_SIZE] at hsize
    omega
  have hne : ((s.audio_buffer.read (some (AUDIO_CHUNK_SIZE * 4))).2).isEmpty
      = false :=
    AudioBuffer.read_some_nonempty _ _ hpos (by norm_num [AUDIO_CHUNK_SIZE])
  simp only [StreamingSession.process_loop_step]
  rw [if_neg (by simp [hstate]), if_neg (Nat.not_lt.mpr hsize)]
  rw [if_neg (by simp [hne])]
  rw [StreamingSession.process_audio_transcribe_error f sf _ _ false e (hf _)]
  simp [StreamingSession.change_state, StreamingSession.send_message, hstate]

theorem StreamingSession.loop_step_synthesis_error
    (s : StreamingSession) (f : TranscribeFunc) (g : SynthesizeFunc)
    (t e : String) (hstate : s.state = .listening)
    (hsize : AUDIO_CHUNK_SIZE ≤ s.audio_buffer.size)
    (hf : ∀ a, f a = .ok { text := t, is_final := some true })
    (ht : ¬ t = "")
    (hvp : s.config.voice_profile_id.isSome = true)
    (hg : ∀ u, g u = .error e) :
    (StreamingSession.process_loop_step (some f) (some g) s).1.errors
        = s.errors + 1 ∧
    (StreamingSession.process_loop_step (some f) (some g) s).1.state
        = .listening ∧
    (StreamingSession.process_loop_step (some f) (some g) s).1.send_queue
        = s.send_queue
            ++ [OutMsg.ctrl .state_change, OutMsg.ctrl .transcript_final,
                OutMsg.ctrl .state_change, OutMsg.ctrl .state_change] := by
  have hpos : 0 < s.audio_buffer.buffer.length := by
    simp only [AudioBuffer.size, AUDIO_CHUNK_SIZE] at hsize
    omega
  have hne : ((s.audio_buffer.read (some (AUDIO_CHUNK_SIZE * 4))).2).isEmpty
      = false :=
    AudioBuffer.read_some_nonempty _ _ hpos (by norm_num [AUDIO_CHUNK_SIZE])
  simp only [StreamingSession.process_loop_step]
  rw [if_neg (by simp [hstate]), if_neg (Nat.not_lt.mpr hsize)]
  rw [if_neg (by simp [hne])]
  rw [StreamingSession.process_audio_synthesis_error f g
      { s with audio_buffer :=
          (s.audio_buffer.read (some (AUDIO_CHUNK_SIZE * 4))).1 }
      ((s.audio_buffer.read (some (AUDIO_CHUNK_SIZE * 4))).2) false t e (hf _)
      ht hvp (hg _)]
  simp [StreamingSession.change_state, StreamingSession.send_message, hstate]

/-- Is this outbound message an `error` control message? -/
def isErrorMsg : OutMsg → Bool
  | .ctrl .error => true
  | _ => false

/-- A transcription collaborator that always raises. -/
def failingTranscribe : TranscribeFunc := fun _ => .error "backend down"

/-- A transcription collaborator that always returns a final transcript. -/
def okFinalTranscribe : TranscribeFunc :=
  fun _ => .ok { text := "hello", is_final := some true }

/-- A synthesis collaborator that always raises. -/
def failingSynthesize : SynthesizeFunc := fun _ => .error "synth down"

/-- A listening session with one `AUDIO_CHUNK_SIZE` worth of buffered audio. -/
def listeningSession : StreamingSession :=
  { state := .listening,
    audio_buffer := { buffer := List.replicate AUDIO_CHUNK_SIZE 0,
                      not_empty := true } }

/-- `listeningSession` with a voice profile configured, so a final transcript
triggers the synthesis collaborator. -/
def listeningVoiceSession : StreamingSession :=
  { listeningSession with config := { voice_profile_id := some "voice-1" } }

theorem listeningSession_size :
    listeningSession.audio_buffer.size = AUDIO_CHUNK_SIZE := by
  simp only [listeningSession, AudioBuffer.size, List.length_replicate]

theorem listeningVoiceSession_size :
    listeningVoiceSession.audio_buffer.size = AUDIO_CHUNK_SIZE := by
  simp only [listeningVoiceSession, listeningSession, AudioBuffer.size,
    List.length_replicate]

/-- C2 counterexample: when the transcription collaborator raises on the next
process-loop iteration, the error counter is incremented and the session
returns to `LISTENING`, but the outbound queue contains no `error` message —
the failure is only printed server-side, refuting the claim that every
collaborator failure is reported to the client as an `error` message. -/
theorem C2_counterexample_no_error_message_emitted :
    ((StreamingSession.process_loop_step (some failingTranscribe) none
        listeningSession).1.send_queue.filter isErrorMsg) = [] ∧
    (StreamingSession.process_loop_step (some failingTranscribe) none
        listeningSession).1.errors = listeningSession.errors + 1 ∧
    (StreamingSession.process_loop_step (some failingTranscribe) none
        listeningSession).1.state = .listening := by
  have h := StreamingSession.loop_step_transcribe_error listeningSession
    failingTranscribe none "backend down" rfl
    (le_of_eq listeningSession_size.symm)
    (fun _ => rfl)
  refine ⟨?_, h.1, h.2.1⟩
  rw [h.2.2]
  rfl

/-- C2 (amended): a raising transcription or synthesis collaborator call in
the process loop increments the session's error counter and leaves the
session in `LISTENING` rather than terminating it, but the failure is only
logged server-side: the outbound messages produced are exactly the
`state_change` notifications (plus the already-sent `transcript_final` in the
synthesis case), with no `error` message for the client. -/
theorem C2_collaborator_failure_recovers_without_client_error :
    (∀ (s : StreamingSession) (f : TranscribeFunc) (sf : Option SynthesizeFunc)
      (e : String),
      s.state = .listening →
      AUDIO_CHUNK_SIZE ≤ s.audio_buffer.size →
      (∀ a, f a = .error e) →
      (StreamingSession.process_loop_step (some f) sf s).1.errors
          = s.errors + 1 ∧
      (StreamingSession.process_loop_step (some f) sf s).1.state
          = .listening ∧
      (StreamingSession.process_loop_step (some f) sf s).1.send_queue
          = s.send_queue
              ++ [OutMsg.ctrl .state_change, OutMsg.ctrl .state_change]) ∧
    (∀ (s : StreamingSession) (f : TranscribeFunc) (g : SynthesizeFunc)
      (t e : String),
      s.state = .listening →
      AUDIO_CHUNK_SIZE ≤ s.audio_buffer.size →
      (∀ a, f a = .ok { text := t, is_final := some true }) →
      ¬ t = "" →
      s.config.voice_profile_id.isSome = true →
      (∀ u, g u = .error e) →
      (StreamingSession.process_loop_step (some f) (some g) s).1.errors
          = s.errors + 1 ∧
      (StreamingSession.process_loop_step (some f) (some g) s).1.state
          = .listening ∧
      (StreamingSession.process_loop_step (some f) (some g) s).1.send_queue
          = s.send_queue
              ++ [OutMsg.ctrl .state_change, OutMsg.ctrl .transcript_final,
                  OutMsg.ctrl .state_change, OutMsg.ctrl .state_change]) :=
  ⟨fun s f sf e h1 h2 h3 =>
      StreamingSession.loop_step_transcribe_error s f sf e h1 h2 h3,
   fun s f g t e h1 h2 h3 h4 h5 h6 =>
      StreamingSession.loop_step_synthesis_error s f g t e h1 h2 h3 h4 h5 h6⟩

/-- C2 witness: both failure modes at concrete sessions — a failing
transcription call on `listeningSession` and a failing synthesis call on
`listeningVoiceSession` — increment the error counter and land back in
`LISTENING`. -/
theorem C2_collaborator_failure_recovers_witness :
    ((StreamingSession.process_loop_step (some failingTranscribe) none
        listeningSession).1.errors = listeningSession.errors + 1) ∧
    ((StreamingSession.process_loop_step (some okFinalTranscribe)
        (some failingSynthesize) listeningVoiceSession).1.errors
          = listeningVoiceSession.errors + 1) ∧
    ((StreamingSession.process_loop_step (some okFinalTranscribe)
        (some failingSynthesize) listeningVoiceSession).1.state
          = .listening) :=
  ⟨(C2_collaborator_failure_recovers_without_client_error.1 listeningSession
      failingTranscribe none "backend down" rfl
      (le_of_eq listeningSession_size.symm)
      (fun _ => rfl)).1,
   (C2_collaborator_failure_recovers_without_client_error.2
      listeningVoiceSession okFinalTranscribe failingSynthesize "hello"
      "synth down" rfl
      (le_of_eq listeningVoiceSession_size.symm)
      (fun _ => rfl) (by decide) rfl (fun _ => rfl)).1,
   (C2_collaborator_failure_recovers_without_client_error.2
      listeningVoiceSession okFinalTranscribe failingSynthesize "hello"
      "synth down" rfl
      (le_of_eq listeningVoiceSession_size.symm)
      (fun _ => rfl) (by decide) rfl (fun _ => rfl)).2.1⟩
theorem AudioBuffer.read_some_length (b : AudioBuffer) (n : ℕ) :
    ((b.read (some n)).1).buffer.length = b.buffer.length - n := by
  simp only [AudioBuffer.read]
  by_cases hm : n ≥ b.buffer.length
  · rw [if_pos hm]
    simp
    omega
  · rw [if_neg hm]
    simp

theorem StreamingSession.handle_audio_accepted (s : StreamingSession)
    (d : List ℕ)
    (h : s.audio_buffer.buffer.length + d.length ≤ s.audio_buffer.max_size) :
    s.handle_audio d
      = { s with
          audio_buffer := { s.audio_buffer with
            buffer := s.audio_buffer.buffer ++ d,
            not_empty := true },
          audio_bytes_received := s.audio_bytes_received + d.length } := by
  have hno : ¬ (s.audio_buffer.buffer.length + d.length
      > s.audio_buffer.max_size) := by omega
  simp only [StreamingSession.handle_audio, AudioBuffer.write, if_neg hno]
  simp

theorem StreamingSession.feed_all (chunks : List (List ℕ)) :
    ∀ s : StreamingSession,
      s.audio_buffer.buffer.length + (chunks.map List.length).sum
          ≤ s.audio_buffer.max_size →
      chunks.foldl StreamingSession.handle_audio s
        = { s with
            audio_buffer := { s.audio_buffer with
              buffer := s.audio_buffer.buffer ++ chunks.flatten,
              not_empty :=
                if chunks.isEmpty then s.audio_buffer.not_empty else true },
            audio_bytes_received :=
              s.audio_bytes_received + (chunks.map List.length).sum } := by
  induction chunks with
  | nil => intro s _; simp
  | cons c cs ih =>
    intro s h
    simp only [List.map_cons, List.sum_cons] at h
    rw [List.foldl_cons,
      StreamingSession.handle_audio_accepted s c (by omega)]
    rw [ih _ (by simp; omega)]
    simp [List.append_assoc]
    omega

/-- A synthesis collaborator returning a fixed 100-byte clip. -/
def scenarioSynthesize : SynthesizeFunc := fun _ => .ok (List.replicate 100 7)

/-- The outbound messages one successful final-transcript-plus-synthesis
iteration of the process loop appends to the send queue. -/
def scenarioDelta : List OutMsg :=
  [OutMsg.ctrl .state_change, OutMsg.ctrl .transcript_final,
   OutMsg.ctrl .state_change, OutMsg.audio (List.replicate 100 7),
   OutMsg.ctrl .audio_response, OutMsg.ctrl .state_change]

theorem chunkPieces_small (l : List ℕ) (hne : l ≠ []) (hlen : l.length ≤ 8192) :
    chunkPieces l = [l] := by
  cases l with
  | nil => exact absurd rfl hne
  | cons x xs =>
    rw [chunkPieces]
    rw [List.take_of_length_le hlen, List.drop_eq_nil_of_le hlen,
      chunkPieces]

theorem process_audio_final_ok (s : StreamingSession) (a : List ℕ) (fin : Bool)
    (hvp : s.config.voice_profile_id.isSome = true) :
    StreamingSession.process_audio (some okFinalTranscribe)
        (some scenarioSynthesize) s a fin
      = ({ s with
            state := .listening,
            send_queue := s.send_queue ++ scenarioDelta,
            transcripts_generated := s.transcripts_generated + 1 },
         none, 1) := by
  simp only [StreamingSession.process_audio, okFinalTranscribe,
    StreamingSession.generate_response, scenarioSynthesize, Option.getD,
    StreamingSession.change_state, StreamingSession.send_message]
  rw [if_pos (by decide : ¬ ("hello" : String) = "")]
  rw [chunkPieces_small (List.replicate 100 7) (by simp) (by simp)]
  simp [hvp, scenarioDelta]

theorem loop_step_final_ok (s : StreamingSession)
    (hstate : s.state = .listening)
    (hsize : AUDIO_CHUNK_SIZE ≤ s.audio_buffer.size)
    (hvp : s.config.voice_profile_id.isSome = true) :
    StreamingSession.process_loop_step (some okFinalTranscribe)
        (some scenarioSynthesize) s
      = ({ s with
            state := .listening,
            audio_buffer :=
              (s.audio_buffer.read (some (AUDIO_CHUNK_SIZE * 4))).1,
            send_queue := s.send_queue ++ scenarioDelta,
            transcripts_generated := s.transcripts_generated + 1 }, 1) := by
  have hpos : 0 < s.audio_buffer.buffer.length := by
    simp only [AudioBuffer.size, AUDIO_CHUNK_SIZE] at hsize
    omega
  have hne : ((s.audio_buffer.read (some (AUDIO_CHUNK_SIZE * 4))).2).isEmpty
      = false :=
    AudioBuffer.read_some_nonempty _ _ hpos (by norm_num [AUDIO_CHUNK_SIZE])
  simp only [StreamingSession.process_loop_step]
  rw [if_neg (by simp [hstate]), if_neg (Nat.not_lt.mpr hsize)]
  rw [if_neg (by simp [hne])]
  rw [process_audio_final_ok
      { s with audio_buffer :=
          (s.audio_buffer.read (some (AUDIO_CHUNK_SIZE * 4))).1 }
      ((s.audio_buffer.read (some (AUDIO_CHUNK_SIZE * 4))).2) false hvp]

theorem loop_multiple (k : ℕ) :
    ∀ (s : StreamingSession) (fuel : ℕ),
      k ≤ fuel →
      s.state = .listening →
      s.config.voice_profile_id.isSome = true →
      s.audio_buffer.buffer.length = k * (AUDIO_CHUNK_SIZE * 4) →
      (StreamingSession.process_loop (some okFinalTranscribe)
          (some scenarioSynthesize) fuel s).2 = k ∧
      (StreamingSession.process_loop (some okFinalTranscribe)
          (some scenarioSynthesize) fuel s).1.send_queue
        = s.send_queue ++ (List.replicate k scenarioDelta).flatten := by
  induction k with
  | zero =>
    intro s fuel _ hstate _ hlen
    cases fuel with
    | zero => simp [StreamingSession.process_loop]
    | succ f =>
      have hlen0 : s.audio_buffer.buffer.length = 0 := by simpa using hlen
      rw [StreamingSession.process_loop]
      rw [if_neg (by
        intro hc
        have h2 := hc.2
        simp only [AudioBuffer.size, AUDIO_CHUNK_SIZE, hlen0] at h2
        omega)]
      simp
  | succ k ih =>
    intro s fuel hfuel hstate hvp hlen
    cases fuel with
    | zero => omega
    | succ f =>
      rw [StreamingSession.process_loop]
      rw [if_pos ⟨hstate, by
        simp only [AudioBuffer.size, hlen, AUDIO_CHUNK_SIZE]
        nlinarith⟩]
      rw [loop_step_final_ok s hstate
        (by simp only [AudioBuffer.size, hlen, AUDIO_CHUNK_SIZE]; nlinarith)
        hvp]
      dsimp only
      have hlen2 : ((s.audio_buffer.read
          (some (AUDIO_CHUNK_SIZE * 4))).1).buffer.length
            = k * (AUDIO_CHUNK_SIZE * 4) := by
        rw [AudioBuffer.read_some_length, hlen]
        ring_nf
        omega
      have := ih { s with
            state := .listening,
            audio_buffer :=
              (s.audio_buffer.read (some (AUDIO_CHUNK_SIZE * 4))).1,
            send_queue := s.send_queue ++ scenarioDelta,
            transcripts_generated := s.transcripts_generated + 1 }
          f (by omega) rfl hvp hlen2
      refine ⟨by rw [this.1]; omega, ?_⟩
      rw [this.2]
      simp only [List.replicate_succ, List.flatten_cons, List.append_assoc]

/-- Scenario A input: 5 chunks of synthetic speech energy (bytes `100`) then
11 chunks of silence (bytes `0`), each of `AUDIO_CHUNK_SIZE` bytes. -/
def scenarioChunks : List (List ℕ) :=
  List.replicate 5 (List.replicate AUDIO_CHUNK_SIZE 100)
    ++ List.replicate 11 (List.replicate AUDIO_CHUNK_SIZE 0)

/-- A fresh session after `start_stream` with a voice profile configured. -/
def scenarioStart : StreamingSession :=
  StreamingSession.start_stream {}
    (some { voice_profile_id := some (some "voice-1") })

/-- The scenario session after all 16 chunks have been ingested. -/
def scenarioFed : StreamingSession :=
  scenarioChunks.foldl StreamingSession.handle_audio scenarioStart

/-- The drained process loop on the scenario, with its transcription-call
count. -/
def scenarioRun : StreamingSession × ℕ :=
  StreamingSession.process_loop (some okFinalTranscribe)
    (some scenarioSynthesize) 20 scenarioFed

/-- Is this outbound message the `transcript_final` control message? -/
def isFinalTranscriptMsg : OutMsg → Bool
  | .ctrl .transcript_final => true
  | _ => false

/-- Is this outbound message a binary synthesized-audio frame? -/
def isAudioBytesMsg : OutMsg → Bool
  | .audio _ => true
  | _ => false

theorem scenarioChunks_sum : (scenarioChunks.map List.length).sum = 65536 := by
  simp only [scenarioChunks, List.map_append, List.map_replicate,
    List.length_replicate, List.sum_append, List.sum_replicate, smul_eq_mul,
    AUDIO_CHUNK_SIZE]

theorem scenarioFed_eq :
    scenarioFed
      = { scenarioStart with
          audio_buffer := { scenarioStart.audio_buffer with
            buffer := scenarioStart.audio_buffer.buffer
                ++ scenarioChunks.flatten,
            not_empty :=
              if scenarioChunks.isEmpty then
                scenarioStart.audio_buffer.not_empty
              else true },
          audio_bytes_received := scenarioStart.audio_bytes_received
              + (scenarioChunks.map List.length).sum } :=
  StreamingSession.feed_all scenarioChunks scenarioStart
    (by rw [scenarioChunks_sum]; norm_num [scenarioStart,
      StreamingSession.start_stream, StreamingSession.update_config,
      StreamingSession.change_state, StreamingSession.send_message,
      MAX_BUFFER_SIZE])

/-- C1 (evaluated at the failing input): after `start_stream` with a voice
profile configured, feeding 5 above-threshold-energy chunks and then 11
silence chunks of `AUDIO_CHUNK_SIZE` bytes each and draining the process
loop makes FOUR transcription-collaborator calls, not one — the streaming
session never consults the voice-activity detector, so every 16 KiB slice
(speech or silence) is transcribed.  The ordering half of the claim holds:
within each utterance's outbound messages, `transcript_final` precedes the
synthesized `audio_response` bytes. -/
theorem C1_scenario_four_calls_not_one :
    scenarioRun.2 = 4 ∧
    ¬ scenarioRun.2 = 1 ∧
    scenarioRun.1.send_queue
      = [OutMsg.ctrl .config, OutMsg.ctrl .state_change]
          ++ (List.replicate 4 scenarioDelta).flatten ∧
    scenarioDelta.findIdx isFinalTranscriptMsg
      < scenarioDelta.findIdx isAudioBytesMsg ∧
    scenarioDelta.findIdx isAudioBytesMsg < scenarioDelta.length := by
  have hstate : scenarioFed.state = .listening := by
    rw [scenarioFed_eq]
    rfl
  have hvp : scenarioFed.config.voice_profile_id.isSome = true := by
    rw [scenarioFed_eq]
    rfl
  have hlen : scenarioFed.audio_buffer.buffer.length
      = 4 * (AUDIO_CHUNK_SIZE * 4) := by
    rw [scenarioFed_eq]
    show (scenarioStart.audio_buffer.buffer ++ scenarioChunks.flatten).length
      = 4 * (AUDIO_CHUNK_SIZE * 4)
    have h0 : scenarioStart.audio_buffer.buffer.length = 0 := rfl
    rw [List.length_append, List.length_flatten, scenarioChunks_sum, h0]
    norm_num [AUDIO_CHUNK_SIZE]
  have h := loop_multiple 4 scenarioFed 20 (by omega) hstate hvp hlen
  have hq : scenarioFed.send_queue
      = [OutMsg.ctrl .config, OutMsg.ctrl .state_change] := by
    rw [scenarioFed_eq]
    rfl
  simp only [scenarioRun]
  refine ⟨h.1, ?_, ?_, by decide, by decide⟩
  · rw [h.1]
    omega
  · rw [h.2, hq]
